import Mathlib

/-!
Shallow embedding of the node-express user-management service:
`src/models/User.js`, `src/controllers/userController.js`,
`src/middleware/errorMiddleware.js`.

The document store is modelled as a list of stored user records; mongoose
documents, setters, validators, the pre-save hashing hook and the unique
email index are translated directly from `src/models/User.js`.  JSON
response bodies are modelled by an explicit `Json` type so that "contains
no password field" is a statement about the actual payload shape.
-/

/-- A JSON value, as produced by the service's `res.json(...)` calls. -/
inductive Json where
  | null : Json
  | str : String → Json
  | bool : Bool → Json
  | arr : List Json → Json
  | obj : List (String × Json) → Json
deriving Repr

mutual

/-- Deep key search: does the JSON value contain a field named `k`
anywhere (at any nesting depth)? -/
def Json.hasKey : Json → String → Bool
  | .obj fs, k => Json.fieldsHaveKey fs k
  | .arr xs, k => Json.listHasKey xs k
  | _, _ => false

def Json.fieldsHaveKey : List (String × Json) → String → Bool
  | [], _ => false
  | (k', v) :: rest, k => k' == k || Json.hasKey v k || Json.fieldsHaveKey rest k

def Json.listHasKey : List Json → String → Bool
  | [], _ => false
  | j :: rest, k => Json.hasKey j k || Json.listHasKey rest k

end

/-! ### JavaScript-level helpers -/

/-- JS truthiness test for an optional string body field:
`undefined` and `""` are falsy (`!name` in the controller). -/
def falsy : Option String → Bool
  | none => true
  | some s => s.data.isEmpty

/-- Model of `bcrypt.hash`: a deterministic one-way tag of the plaintext.
The cost factor is fixed (the service reads SALT_ROUNDS once, default 10). -/
def bcryptHash (plain : String) : String :=
  "$2b$10$" ++ plain

/-- Model of `bcrypt.compare`: verification succeeds exactly when the
digest was produced from the same plaintext. -/
def bcryptCompare (plain digest : String) : Bool :=
  bcryptHash plain == digest

/-- ASCII lowercase of one character (model of JS `toLowerCase`). -/
def lowerChar (c : Char) : Char :=
  if 'A' ≤ c && c ≤ 'Z' then Char.ofNat (c.toNat + 32) else c

/-- Model of JS `String.prototype.toLowerCase` / the mongoose `lowercase`
setter, over the string's characters. -/
def toLowerStr (s : String) : String :=
  ⟨s.data.map lowerChar⟩

/-- Model of JS `String.prototype.trim` / the mongoose `trim` setter. -/
def trimStr (s : String) : String :=
  ⟨((s.data.dropWhile Char.isWhitespace).reverse.dropWhile
      Char.isWhitespace).reverse⟩

/-- One character of the `[^\s@]` class in the email regex. -/
def emailAtomChar (c : Char) : Bool :=
  !c.isWhitespace && c != '@'

/-- Split a character list at its first occurrence of `c`. -/
def splitOnceAt (c : Char) : List Char → Option (List Char × List Char)
  | [] => none
  | x :: xs =>
      if x == c then some ([], xs)
      else (splitOnceAt c xs).map (fun p => (x :: p.1, p.2))

/-- Model of `emailRegex = /^[^\s@]+@[^\s@]+\.[^\s@]+$/` from `User.js`.
A string matches iff it splits as `local@domain` with `local` a nonempty
run of non-space non-`@` characters and `domain` nonempty, free of
whitespace and `@`, containing a dot with at least one character on each
side. -/
def emailMatch (s : String) : Bool :=
  match splitOnceAt '@' s.data with
  | some (loc, dom) =>
      !loc.isEmpty && loc.all emailAtomChar &&
      dom.all emailAtomChar &&
      ((dom.drop 1).dropLast.contains '.')
  | none => false

/-- The mandatory part `[6-9]\d{9}` of the Indian phone regex. -/
def phoneCore (cs : List Char) : Bool :=
  match cs with
  | d :: rest => ('6' ≤ d && d ≤ '9') && rest.length == 10 - 1 && rest.all Char.isDigit
  | [] => false

/-- Match after stripping a fixed leading character sequence. -/
def phoneAfterLead (lead cs : List Char) : Bool :=
  cs.take lead.length == lead && phoneCore (cs.drop lead.length)

/-- Model of `indianPhoneRegex = /^(?:\+91|91|0)?[6-9]\d{9}$/` from `User.js`. -/
def phoneMatch (s : String) : Bool :=
  let cs := s.data
  phoneCore cs || phoneAfterLead ['+', '9', '1'] cs ||
    phoneAfterLead ['9', '1'] cs || phoneAfterLead ['0'] cs

/-- Model of `mongoose.Types.ObjectId.isValid` on a string id: a 24-character hex
string, or any 12-character string. -/
def isValidObjectId (s : String) : Bool :=
  (s.data.length == 24 && s.data.all (fun c =>
    c.isDigit || ('a' ≤ c && c ≤ 'f') || ('A' ≤ c && c ≤ 'F'))) ||
  s.data.length == 12

example : emailMatch "a@x.com" = true := by decide
example : emailMatch "bad-email" = false := by decide
example : emailMatch "a@x" = false := by decide
example : emailMatch "a b@x.com" = false := by decide
example : phoneMatch "9876543210" = true := by decide
example : phoneMatch "+919876543210" = true := by decide
example : phoneMatch "1234567890" = false := by decide
example : phoneMatch "09876543210" = true := by decide

/-! ### Data model: stored records and in-flight documents -/

/-- A persisted user record, as held by the document store.  `password`
holds the bcrypt digest.  (`createdAt`/`updatedAt` bookkeeping timestamps
are omitted from the model; no handler reads them.) -/
structure StoredUser where
  id : String
  name : String
  email : String
  phone : String
  password : String
  role : String
deriving Repr, DecidableEq

/-- An in-flight mongoose document during an update: the record plus the
`isModified("password")` flag consulted by the pre-save hook. -/
structure LiveUser where
  id : String
  name : String
  email : String
  phone : String
  password : String
  role : String
  passwordModified : Bool
deriving Repr, DecidableEq

/-- A freshly constructed document (`new User({...})`), before setters,
defaults and validation.  Absent fields are `none`. -/
structure UserDoc where
  name : Option String
  email : Option String
  phone : Option String
  password : Option String
  role : Option String
deriving Repr, DecidableEq

/-- The schema setters of `User.js`: `trim` on name and phone, `trim` and
`lowercase` on email.  Password and role have no setters. -/
def applySetters (d : UserDoc) : UserDoc :=
  { d with
    name := d.name.map trimStr
    email := d.email.map (fun e => trimStr (toLowerStr e))
    phone := d.phone.map trimStr }

/-- Schema defaults: `role` defaults to `"user"` when absent. -/
def applyDefaults (d : UserDoc) : UserDoc :=
  { d with role := some (d.role.getD "user") }

/-- Mongoose `required` on a String path: present and nonempty. -/
def requiredStr (v : Option String) : Bool :=
  match v with
  | some s => !s.data.isEmpty
  | none => false

/-- Does a `match` (regex) validator accept?  Mongoose skips the regex
check for absent and empty values (those are `required`'s business). -/
def matchOk (rex : String → Bool) (v : Option String) : Bool :=
  match v with
  | none => true
  | some s => s.data.isEmpty || rex s

/-- The mongoose enum error message for an invalid role value. -/
def roleEnumMsg (r : String) : String :=
  "`" ++ r ++ "` is not a valid enum value for path `role`."

/-- Validation errors of the name/email/phone/password paths, in schema
declaration order, one `(path, message)` per failing path. -/
def baseFieldErrors (d : UserDoc) : List (String × String) :=
  (if requiredStr d.name then [] else [("name", "Name is required")]) ++
  (if !requiredStr d.email then [("email", "Email is required")]
   else if matchOk emailMatch d.email then []
   else [("email", "Please fill a valid email address")]) ++
  (if !requiredStr d.phone then [("phone", "Phone is required")]
   else if matchOk phoneMatch d.phone then []
   else [("phone", "Please fill a valid Indian phone number")]) ++
  (if requiredStr d.password then [] else [("password", "Password is required")])

/-- Validation errors of the `role` path: the enum validator rejects any
present value outside `{"user", "admin"}` (absent values pass). -/
def roleFieldErrors (d : UserDoc) : List (String × String) :=
  match d.role with
  | none => []
  | some r =>
      if r == "user" || r == "admin" then [] else [("role", roleEnumMsg r)]

/-- Full schema validation of a document: every failing path is reported,
in schema declaration order (name, email, phone, password, role). -/
def validateUserDoc (d : UserDoc) : List (String × String) :=
  baseFieldErrors d ++ roleFieldErrors d

/-! ### Errors and the error-formatting middleware -/

/-- The shape of a thrown JS error as far as `errorMiddleware.js` reads
it: `message`, `instanceof mongoose.Error.ValidationError` (with the
per-field messages of `err.errors`), `code`, and the keys of
`err.keyPattern`. -/
structure ErrObj where
  message : String
  validationMessages : Option (List String)
  code : Option Nat
  keyPatternKeys : List String
deriving Repr, DecidableEq

/-- A plain `new Error(m)` thrown by a controller. -/
def mkError (m : String) : ErrObj :=
  { message := m, validationMessages := none, code := none, keyPatternKeys := [] }

/-- A mongoose `ValidationError` carrying the messages of every failing
path. -/
def validationErrOf (errs : List (String × String)) : ErrObj :=
  { message := "User validation failed"
    validationMessages := some (errs.map (fun e => e.2))
    code := none
    keyPatternKeys := [] }

/-- The MongoDB duplicate-key error (code 11000) raised by the unique
email index. -/
def dupKeyEmailErr : ErrObj :=
  { message := "E11000 duplicate key error"
    validationMessages := none
    code := some 11000
    keyPatternKeys := ["email"] }

/-- An HTTP response: status code and JSON body. -/
structure HttpResponse where
  status : Nat
  body : Json
deriving Repr

/-- Translation of `errorHandler` from `src/middleware/errorMiddleware.js`, given the
response's already-set status code (`res.statusCode`; Express's default
is 200 when no controller set it) and the thrown error. -/
def errorHandler (resStatusCode : Nat) (err : ErrObj) : HttpResponse :=
  let statusCode :=
    if resStatusCode != 0 && resStatusCode != 200 then resStatusCode else 500
  let message := if err.message != "" then err.message else "Server Error"
  let sm1 : Nat × String :=
    match err.validationMessages with
    | some msgs => (400, String.intercalate ", " msgs)
    | none => (statusCode, message)
  let sm2 : Nat × String :=
    if err.code == some 11000 then
      (400, (err.keyPatternKeys.headD "undefined") ++ " already exists")
    else sm1
  { status := sm2.1
    body := .obj [("success", .bool false), ("message", .str sm2.2)] }

/-- What a controller invocation produces: either a response it sent
itself, or a thrown error together with the `res.statusCode` in force at
the throw (forwarded by `asyncHandler` to `errorHandler`). -/
inductive HandlerOutcome where
  | resp : HttpResponse → HandlerOutcome
  | err : Nat → ErrObj → HandlerOutcome
deriving Repr

/-- The response the client finally sees: errors are formatted by the
`errorHandler` middleware. -/
def finishOutcome : HandlerOutcome → HttpResponse
  | .resp r => r
  | .err st e => errorHandler st e

/-! ### Store operations -/

/-- Model of `User.findOne({ email })` on stored records. -/
def dbFindByEmail (db : List StoredUser) (e : String) : Option StoredUser :=
  db.find? (fun u => u.email == e)

/-- Model of `User.findById(id)` on stored records. -/
def dbFindById (db : List StoredUser) (i : String) : Option StoredUser :=
  db.find? (fun u => u.id == i)

/-- A stored record rendered as the full mongoose document (no
projection): the password digest is among its fields. -/
def storedUserDoc (u : StoredUser) : Json :=
  .obj [("_id", .str u.id), ("name", .str u.name), ("email", .str u.email),
        ("phone", .str u.phone), ("password", .str u.password),
        ("role", .str u.role)]

/-- A stored record as returned by `.select("-password").lean()`: the
document with the password field projected out. -/
def docJsonNoPassword (u : StoredUser) : Json :=
  .obj [("_id", .str u.id), ("name", .str u.name), ("email", .str u.email),
        ("phone", .str u.phone), ("role", .str u.role)]

/-- The find-all read of `getUsers`:
`User.find().select("-password").lean()`. -/
def findAllDocs (db : List StoredUser) : List Json :=
  db.map docJsonNoPassword

/-- The by-email read used by `registerUser` (pre-existence check) and
`loginUser`: `User.findOne({ email })`, no projection. -/
def findByEmailDoc (db : List StoredUser) (e : String) : Option Json :=
  (dbFindByEmail db e).map storedUserDoc

/-- The by-id read used by `updateUser` and `updateUserRole`:
`User.findById(id)`, no projection. -/
def findByIdDoc (db : List StoredUser) (i : String) : Option Json :=
  (dbFindById db i).map storedUserDoc

/-! ### Saving documents -/

/-- The pre-save hook of `User.js`: hash the password exactly when
`isModified("password")`; otherwise leave the record untouched. -/
def preSaveHook (u : LiveUser) : LiveUser :=
  if !u.passwordModified then u
  else { u with password := bcryptHash u.password }

/-- Model of `user.save()` for a new document: setters, defaults, full schema
validation (a `ValidationError` collects every failing path), the
pre-save hook (a new document's password path is always modified, so the
password is hashed), then the insert guarded by the unique email index. -/
def saveNew (db : List StoredUser) (nextId : String) (d0 : UserDoc) :
    Except ErrObj (List StoredUser × StoredUser) :=
  let d := applyDefaults (applySetters d0)
  let errs := validateUserDoc d
  if !errs.isEmpty then .error (validationErrOf errs)
  else
    let u : StoredUser :=
      { id := nextId, name := d.name.getD "", email := d.email.getD ""
        phone := d.phone.getD ""
        password := bcryptHash (d.password.getD "")
        role := d.role.getD "user" }
    if db.any (fun v => v.email == u.email) then .error dupKeyEmailErr
    else .ok (db ++ [u], u)

/-- View an in-flight document's fields for validation. -/
def liveDoc (u : LiveUser) : UserDoc :=
  { name := some u.name, email := some u.email, phone := some u.phone
    password := some u.password, role := some u.role }

/-- Forget the modified-flag of an in-flight document. -/
def storedOfLive (u : LiveUser) : StoredUser :=
  { id := u.id, name := u.name, email := u.email, phone := u.phone
    password := u.password, role := u.role }

/-- Load a stored record as an in-flight document: nothing is modified
yet, so `isModified("password")` is false. -/
def toLive (u : StoredUser) : LiveUser :=
  { id := u.id, name := u.name, email := u.email, phone := u.phone
    password := u.password, role := u.role, passwordModified := false }

/-- Model of `user.save()` for an already-persisted document: full schema
validation, the pre-save hook, then the in-place write guarded by the
unique email index (a collision with a different record raises the
duplicate-key error). -/
def saveLive (db : List StoredUser) (u : LiveUser) :
    Except ErrObj (List StoredUser × StoredUser) :=
  let errs := validateUserDoc (liveDoc u)
  if !errs.isEmpty then .error (validationErrOf errs)
  else
    let s := storedOfLive (preSaveHook u)
    if db.any (fun v => v.id != s.id && v.email == s.email) then
      .error dupKeyEmailErr
    else .ok (db.map (fun v => if v.id == s.id then s else v), s)

/-! ### Request bodies and response fragments -/

/-- The body of `POST /users/register`. -/
structure RegisterBody where
  name : Option String
  email : Option String
  phone : Option String
  password : Option String
  role : Option String
deriving Repr, DecidableEq

/-- The body of `POST /users/login`. -/
structure LoginBody where
  email : Option String
  password : Option String
deriving Repr, DecidableEq

/-- The body of `PUT /users/:id`. -/
structure UpdateBody where
  name : Option String
  email : Option String
  phone : Option String
  password : Option String
deriving Repr, DecidableEq

/-- The `{ id, name, email, phone, role }` user object the register and
update responses are built from. -/
def userViewJson (u : StoredUser) : Json :=
  .obj [("id", .str u.id), ("name", .str u.name), ("email", .str u.email),
        ("phone", .str u.phone), ("role", .str u.role)]

/-! ### The request handlers of `userController.js` -/

/-- Handler `getUsers`: GET `/users`. -/
def getUsers (db : List StoredUser) : HttpResponse :=
  { status := 200
    body := .obj [("success", .bool true), ("users", .arr (findAllDocs db))] }

/-- Handler `registerUser`: POST `/users/register`.  Returns the outcome and the
resulting store.  `nextId` is the id the store assigns on insert. -/
def registerUser (db : List StoredUser) (nextId : String) (b : RegisterBody) :
    HandlerOutcome × List StoredUser :=
  if falsy b.name || falsy b.email || falsy b.phone || falsy b.password then
    (.err 400 (mkError "name, email, phone and password are required"), db)
  else
    match dbFindByEmail db (toLowerStr (b.email.getD "")) with
    | some _ => (.err 400 (mkError "Email already registered"), db)
    | none =>
        let d : UserDoc :=
          { name := b.name, email := b.email, phone := b.phone
            password := b.password
            role := if falsy b.role then none else b.role }
        match saveNew db nextId d with
        | .error e => (.err 200 e, db)
        | .ok (db2, u) =>
            (.resp { status := 201
                     body := .obj [("success", .bool true),
                       ("message", .str "User registered successfully"),
                       ("user", userViewJson u)] }, db2)

/-- Handler `loginUser`: POST `/users/login`.  Never mutates the store. -/
def loginUser (db : List StoredUser) (b : LoginBody) : HandlerOutcome :=
  if falsy b.email || falsy b.password then
    .err 400 (mkError "Email and password required")
  else
    match dbFindByEmail db (toLowerStr (b.email.getD "")) with
    | none => .err 401 (mkError "Invalid email or password")
    | some u =>
        if !bcryptCompare (b.password.getD "") u.password then
          .err 401 (mkError "Invalid email or password")
        else
          .resp { status := 200
                  body := .obj [("success", .bool true),
                    ("message", .str "Login successful"),
                    ("role", .str u.role)] }

/-- Handler `updateUser`: PUT `/users/:id`. -/
def updateUser (db : List StoredUser) (idp : String) (b : UpdateBody) :
    HandlerOutcome × List StoredUser :=
  if !isValidObjectId idp then (.err 400 (mkError "Invalid user id"), db)
  else
    match dbFindById db idp with
    | none => (.err 404 (mkError "User not found"), db)
    | some u0 =>
        let live0 := toLive u0
        let emailStep : Except ErrObj LiveUser :=
          if !falsy b.email && toLowerStr (b.email.getD "") != live0.email then
            if (dbFindByEmail db (toLowerStr (b.email.getD ""))).isSome then
              .error (mkError "Email already registered")
            else
              .ok { live0 with
                email := trimStr (toLowerStr (toLowerStr (b.email.getD ""))) }
          else .ok live0
        match emailStep with
        | .error e => (.err 400 e, db)
        | .ok live1 =>
            let live2 :=
              if falsy b.name then live1
              else { live1 with name := trimStr (b.name.getD "") }
            let live3 :=
              if falsy b.phone then live2
              else { live2 with phone := trimStr (b.phone.getD "") }
            let live4 :=
              if falsy b.password then live3
              else
                { live3 with
                  password := b.password.getD ""
                  passwordModified := true }
            match saveLive db live4 with
            | .error e => (.err 200 e, db)
            | .ok (db2, s) =>
                (.resp { status := 200
                         body := .obj [("success", .bool true),
                           ("message", .str "User updated"),
                           ("user", userViewJson s)] }, db2)

/-- Handler `updateUserRole`: PATCH `/users/:id/role`. -/
def updateUserRole (db : List StoredUser) (idp : String)
    (roleOpt : Option String) : HandlerOutcome × List StoredUser :=
  if !(roleOpt == some "user" || roleOpt == some "admin") then
    (.err 400 (mkError "Role must be either \"user\" or \"admin\""), db)
  else if !isValidObjectId idp then
    (.err 400 (mkError "Invalid user id"), db)
  else
    match dbFindById db idp with
    | none => (.err 404 (mkError "User not found"), db)
    | some u0 =>
        let role := roleOpt.getD ""
        if u0.role == role then
          (.resp { status := 400
                   body := .obj [("success", .bool false),
                     ("message", .str ("User is already a " ++ role))] }, db)
        else
          match saveLive db { toLive u0 with role := role } with
          | .error e => (.err 200 e, db)
          | .ok (db2, s) =>
              (.resp { status := 200
                       body := .obj [("success", .bool true),
                         ("message", .str "Role updated"),
                         ("user", .obj [("id", .str s.id),
                           ("role", .str s.role)])] }, db2)

/-! ### Helper lemmas -/

theorem hasKey_docJsonNoPassword (u : StoredUser) :
    (docJsonNoPassword u).hasKey "password" = false := rfl

theorem hasKey_userViewJson (u : StoredUser) :
    (userViewJson u).hasKey "password" = false := rfl

theorem hasKey_errorHandler (st : Nat) (e : ErrObj) :
    (errorHandler st e).body.hasKey "password" = false := rfl

theorem listHasKey_findAllDocs (db : List StoredUser) :
    Json.listHasKey (findAllDocs db) "password" = false := by
  induction db with
  | nil => rfl
  | cons u rest ih =>
      simpa [findAllDocs, Json.listHasKey, hasKey_docJsonNoPassword] using ih

theorem getUsers_body_no_password (db : List StoredUser) :
    (getUsers db).body.hasKey "password" = false := by
  simp [getUsers, Json.hasKey, Json.fieldsHaveKey, listHasKey_findAllDocs]

theorem registerUser_resp_no_password (db : List StoredUser) (nid : String)
    (b : RegisterBody) :
    (finishOutcome (registerUser db nid b).1).body.hasKey "password" = false := by
  simp only [registerUser]
  repeat' split
  all_goals rfl

theorem updateUser_resp_no_password (db : List StoredUser) (idp : String)
    (b : UpdateBody) :
    (finishOutcome (updateUser db idp b).1).body.hasKey "password" = false := by
  simp only [updateUser]
  repeat' split
  all_goals rfl

theorem updateUserRole_resp_no_password (db : List StoredUser) (idp : String)
    (r : Option String) :
    (finishOutcome (updateUserRole db idp r).1).body.hasKey "password" = false := by
  simp only [updateUserRole]
  repeat' split
  all_goals rfl

/-- C1: every operation that returns a user representation externally
(list users, register, update profile, update role) produces a response
whose JSON body contains no `password` field anywhere, whatever the
store's contents, the request body and the outcome (success or error). -/
theorem C1_external_user_representations_omit_password :
    (∀ db, (getUsers db).body.hasKey "password" = false) ∧
    (∀ db nid b,
      (finishOutcome (registerUser db nid b).1).body.hasKey "password" = false) ∧
    (∀ db idp b,
      (finishOutcome (updateUser db idp b).1).body.hasKey "password" = false) ∧
    (∀ db idp r,
      (finishOutcome (updateUserRole db idp r).1).body.hasKey "password" = false) :=
  ⟨getUsers_body_no_password, registerUser_resp_no_password,
   updateUser_resp_no_password, updateUserRole_resp_no_password⟩

/-- A sample stored record used by concrete witnesses: the persisted
result of registering A / a@x.com / 9876543210 / p1. -/
def sampleUser : StoredUser :=
  { id := "000000000001", name := "A", email := "a@x.com"
    phone := "9876543210", password := bcryptHash "p1", role := "user" }

/-- C2: the two login failure causes — unknown email (after lowercasing)
and a stored hash that does not verify against the supplied password —
produce the same final response: status 401 with message
"Invalid email or password". -/
theorem C2_login_failure_modes_identical :
    ∀ db (b1 b2 : LoginBody) u,
      falsy b1.email = false → falsy b1.password = false →
      falsy b2.email = false → falsy b2.password = false →
      dbFindByEmail db (toLowerStr (b1.email.getD "")) = none →
      dbFindByEmail db (toLowerStr (b2.email.getD "")) = some u →
      bcryptCompare (b2.password.getD "") u.password = false →
      finishOutcome (loginUser db b1) = finishOutcome (loginUser db b2) ∧
      finishOutcome (loginUser db b1) =
        { status := 401
          body := .obj [("success", .bool false),
            ("message", .str "Invalid email or password")] } := by
  intro db b1 b2 u h1 h2 h3 h4 hn hs hc
  have e1 : finishOutcome (loginUser db b1) =
      { status := 401
        body := .obj [("success", .bool false),
          ("message", .str "Invalid email or password")] } := by
    simp only [loginUser, h1, h2, hn, Bool.or_self]
    rfl
  have e2 : finishOutcome (loginUser db b2) =
      { status := 401
        body := .obj [("success", .bool false),
          ("message", .str "Invalid email or password")] } := by
    simp only [loginUser, h3, h4, hs, hc, Bool.or_self, Bool.not_false]
    rfl
  exact ⟨e1.trans e2.symm, e1⟩

/-- Witness for C2 at a concrete store: a nonexistent email and a wrong
password for an existing email give the identical 401 response. -/
theorem C2_witness :
    finishOutcome (loginUser [sampleUser]
        { email := some "z@x.com", password := some "p1" }) =
      finishOutcome (loginUser [sampleUser]
        { email := some "a@x.com", password := some "wrong" }) ∧
    finishOutcome (loginUser [sampleUser]
        { email := some "z@x.com", password := some "p1" }) =
      { status := 401
        body := .obj [("success", .bool false),
          ("message", .str "Invalid email or password")] } :=
  C2_login_failure_modes_identical [sampleUser]
    { email := some "z@x.com", password := some "p1" }
    { email := some "a@x.com", password := some "wrong" }
    sampleUser rfl rfl rfl rfl (by decide) (by decide) (by decide)

/-- C3 counterexample: the by-email read performed by the login handler
(`User.findOne({ email })`, no projection) on a concrete store returns
the record with its `password` field present — the claim that every
lookup read excludes the password is false (indeed `loginUser` goes on to
read `user.password` for the hash comparison). -/
theorem C3_counterexample :
    (findByEmailDoc [sampleUser] "a@x.com").map
      (fun j => j.hasKey "password") = some true := by decide

theorem storedUserDoc_has_password (u : StoredUser) :
    (storedUserDoc u).hasKey "password" = true := rfl

/-- C3 amended: only the find-all read of `getUsers` excludes the
password from its projection; the by-email read (register's pre-existence
check, login) and the by-id read (update profile) return the full record,
password field included. -/
theorem C3_amended_lookup_projections :
    (∀ db, (findAllDocs db).all (fun j => !j.hasKey "password") = true) ∧
    (∀ db e j, findByEmailDoc db e = some j → j.hasKey "password" = true) ∧
    (∀ db i j, findByIdDoc db i = some j → j.hasKey "password" = true) := by
  refine ⟨?_, ?_, ?_⟩
  · intro db
    simp only [findAllDocs, List.all_eq_true]
    intro j hj
    rcases List.mem_map.mp hj with ⟨u, _, rfl⟩
    simp [hasKey_docJsonNoPassword]
  · intro db e j h
    rcases Option.map_eq_some'.mp h with ⟨u, _, rfl⟩
    exact storedUserDoc_has_password u
  · intro db i j h
    rcases Option.map_eq_some'.mp h with ⟨u, _, rfl⟩
    exact storedUserDoc_has_password u

/-- Witness for the amended C3 at a concrete store: the find-all
projection omits the password while the by-email and by-id reads return
it. -/
theorem C3_amended_witness :
    (findAllDocs [sampleUser]).all (fun j => !j.hasKey "password") = true ∧
    (storedUserDoc sampleUser).hasKey "password" = true ∧
    (storedUserDoc sampleUser).hasKey "password" = true :=
  ⟨C3_amended_lookup_projections.1 [sampleUser],
   C3_amended_lookup_projections.2.1 [sampleUser] "a@x.com"
     (storedUserDoc sampleUser) rfl,
   C3_amended_lookup_projections.2.2 [sampleUser] "000000000001"
     (storedUserDoc sampleUser) rfl⟩

theorem saveLive_ok (db : List StoredUser) (u : LiveUser)
    (db2 : List StoredUser) (s : StoredUser)
    (h : saveLive db u = .ok (db2, s)) :
    s = storedOfLive (preSaveHook u) ∧
    db2 = db.map (fun v => if v.id == s.id then s else v) := by
  simp only [saveLive] at h
  split at h
  · cases h
  · split at h
    · cases h
    · simp only [Except.ok.injEq, Prod.mk.injEq] at h
      refine ⟨h.2.symm, ?_⟩
      rw [← h.1, h.2]

/-- C4: the pre-save hook hashes the password exactly when the
password-modified flag is set — an unmodified in-flight record is passed
through untouched, a modified one gets its password replaced by the hash —
and consequently a role update (which never touches the password path)
leaves every stored password hash unchanged. -/
theorem C4_hash_iff_password_modified :
    (∀ u : LiveUser, u.passwordModified = false → preSaveHook u = u) ∧
    (∀ u : LiveUser, u.passwordModified = true →
      (preSaveHook u).password = bcryptHash u.password) ∧
    (∀ db idp r, (db.map StoredUser.id).Nodup →
      ((updateUserRole db idp r).2).map (fun v => (v.id, v.password)) =
        db.map (fun v => (v.id, v.password))) := by
  refine ⟨?_, ?_, ?_⟩
  · intro u h
    simp [preSaveHook, h]
  · intro u h
    simp [preSaveHook, h]
  · intro db idp r hnd
    simp only [updateUserRole]
    split
    · rfl
    split
    · rfl
    split
    · rfl
    next u0 hfind =>
      split
      · rfl
      split
      · rfl
      next db2 s heq =>
        obtain ⟨hs, hdb2⟩ := saveLive_ok _ _ _ _ heq
        have hid : s.id = u0.id := by rw [hs]; rfl
        have hpw : s.password = u0.password := by rw [hs]; rfl
        have hu0 : u0 ∈ db := List.mem_of_find?_eq_some hfind
        rw [hdb2, List.map_map]
        refine List.map_congr_left ?_
        intro v hv
        by_cases hvid : (v.id == s.id) = true
        · have hv0 : v = u0 := by
            refine List.inj_on_of_nodup_map hnd hv hu0 ?_
            rw [eq_of_beq hvid, hid]
          simp only [Function.comp_apply, hvid, if_pos]
          rw [hid, hpw, hv0]
        · simp only [Function.comp_apply, hvid, if_neg]
          simp [hvid]

/-- Witness for C4: an unmodified record passes the hook unchanged, and a
concrete role update preserves the stored password hash. -/
theorem C4_witness :
    preSaveHook (toLive sampleUser) = toLive sampleUser ∧
    ((updateUserRole [sampleUser] "000000000001" (some "admin")).2).map
        (fun v => (v.id, v.password)) =
      [sampleUser].map (fun v => (v.id, v.password)) :=
  ⟨C4_hash_iff_password_modified.1 (toLive sampleUser) rfl,
   C4_hash_iff_password_modified.2.2 [sampleUser] "000000000001"
     (some "admin") (by decide)⟩

/-- C5: a role update whose target exists and already has the requested
role answers 400 with a `success:false` body naming the current role, and
returns the store unchanged (no save happens). -/
theorem C5_role_update_noop_rejected :
    ∀ db idp r u,
      (r = "user" ∨ r = "admin") →
      isValidObjectId idp = true →
      dbFindById db idp = some u →
      u.role = r →
      updateUserRole db idp (some r) =
        (.resp { status := 400
                 body := .obj [("success", .bool false),
                   ("message", .str ("User is already a " ++ r))] }, db) := by
  intro db idp r u hr hid hfind hrole
  have hrb : (some r == some "user" || some r == some "admin") = true := by
    rcases hr with h | h <;> simp [h]
  simp only [updateUserRole, hrb, hid, hfind]
  simp [hrole]

/-- Witness for C5: updating the role of a stored "user" to "user". -/
theorem C5_witness :
    updateUserRole [sampleUser] "000000000001" (some "user") =
      (.resp { status := 400
               body := .obj [("success", .bool false),
                 ("message", .str ("User is already a " ++ "user"))] },
       [sampleUser]) :=
  C5_role_update_noop_rejected [sampleUser] "000000000001" "user" sampleUser
    (Or.inl rfl) (by decide) (by decide) rfl

theorem saveNew_ok (db : List StoredUser) (nid : String) (d0 : UserDoc)
    (db2 : List StoredUser) (u : StoredUser)
    (h : saveNew db nid d0 = .ok (db2, u)) :
    db2 = db ++ [u] ∧
    u.email = (applySetters d0).email.getD "" ∧
    db.any (fun v => v.email == u.email) = false := by
  simp only [saveNew] at h
  split at h
  · cases h
  · split at h
    · cases h
    · rename_i herrs hcol
      simp only [Except.ok.injEq, Prod.mk.injEq] at h
      obtain ⟨h1, h2⟩ := h
      subst h2
      refine ⟨h1.symm, rfl, ?_⟩
      exact Bool.not_eq_true _ ▸ (eq_false_of_ne_true hcol)

theorem saveNew_error_status_400 (db : List StoredUser) (nid : String)
    (d0 : UserDoc) (e : ErrObj) (h : saveNew db nid d0 = .error e) :
    (errorHandler 200 e).status = 400 := by
  simp only [saveNew] at h
  split at h
  · cases h
    rfl
  · split at h
    · cases h
      rfl
    · cases h

theorem falsy_eq_false_some (o : Option String) (h : falsy o = false) :
    o = some (o.getD "") := by
  cases o with
  | none => cases h
  | some s => rfl

/-- C6: if one registration succeeds, a second registration whose email
agrees with the first up to letter case (and whose required fields are
present) finishes with status 400 — via the pre-existence check or via
the store-level duplicate/validation error, all formatted to 400 — and
inserts no second record. -/
theorem C6_duplicate_email_registration_rejected :
    ∀ db nid1 nid2 (b1 b2 : RegisterBody) r db1,
      registerUser db nid1 b1 = (.resp r, db1) →
      falsy b2.name = false → falsy b2.email = false →
      falsy b2.phone = false → falsy b2.password = false →
      toLowerStr (b2.email.getD "") = toLowerStr (b1.email.getD "") →
      (finishOutcome (registerUser db1 nid2 b2).1).status = 400 ∧
      (registerUser db1 nid2 b2).2 = db1 := by
  intro db nid1 nid2 b1 b2 r db1 h1 hn he hp hw hEq
  simp only [registerUser] at h1
  split at h1
  · simp at h1
  · rename_i hfalsy1
    split at h1
    · simp at h1
    · rename_i x hfind1
      split at h1
      · simp at h1
      · rename_i db2 u heq1
        simp only [Prod.mk.injEq, HandlerOutcome.resp.injEq] at h1
        obtain ⟨-, hdb1⟩ := h1
        obtain ⟨hins, huemail, -⟩ := saveNew_ok _ _ _ _ _ heq1
        have hb1e : falsy b1.email = false := by
          simp only [Bool.or_eq_true, not_or, Bool.not_eq_true] at hfalsy1
          obtain ⟨⟨⟨-, h2⟩, -⟩, -⟩ := hfalsy1
          exact h2
        have huem : u.email = trimStr (toLowerStr (b1.email.getD "")) := by
          rw [huemail, applySetters, falsy_eq_false_some b1.email hb1e]
          rfl
        -- the second registration
        simp only [registerUser, hn, he, hp, hw, Bool.or_self,
          Bool.or_false, Bool.false_or, if_false, Bool.false_eq_true]
        split
        · exact ⟨rfl, rfl⟩
        · split
          · rename_i e2 heq2
            exact ⟨saveNew_error_status_400 _ _ _ _ heq2, rfl⟩
          · rename_i db2' u' heq2
            exfalso
            obtain ⟨-, hu2email, hnocol⟩ := saveNew_ok _ _ _ _ _ heq2
            have hu2em : u'.email = trimStr (toLowerStr (b2.email.getD "")) := by
              rw [hu2email, applySetters, falsy_eq_false_some b2.email he]
              rfl
            have hsame : u'.email = u.email := by
              rw [hu2em, huem, hEq]
            have hmem : u ∈ db1 := by
              rw [← hdb1, hins]
              simp
            have : db1.any (fun v => v.email == u'.email) = true := by
              rw [List.any_eq_true]
              exact ⟨u, hmem, by simp [hsame]⟩
            rw [this] at hnocol
            cases hnocol

/-- Witness for C6: after registering `A@x.com`, registering `a@X.COM`
finishes 400 and the store still holds exactly the first record. -/
theorem C6_witness :
    (finishOutcome (registerUser [sampleUser] "000000000002"
        { name := some "B", email := some "a@X.COM"
          phone := some "8876543210", password := some "p2"
          role := none }).1).status = 400 ∧
    (registerUser [sampleUser] "000000000002"
        { name := some "B", email := some "a@X.COM"
          phone := some "8876543210", password := some "p2"
          role := none }).2 = [sampleUser] :=
  C6_duplicate_email_registration_rejected [] "000000000001" "000000000002"
    { name := some "A", email := some "A@x.com", phone := some "9876543210"
      password := some "p1", role := none }
    { name := some "B", email := some "a@X.COM", phone := some "8876543210"
      password := some "p2", role := none }
    { status := 201
      body := .obj [("success", .bool true),
        ("message", .str "User registered successfully"),
        ("user", userViewJson sampleUser)] }
    [sampleUser] rfl rfl rfl rfl rfl (by decide)

/-- C7: the error formatter always answers with the body
`success:false, message:<string>`, resolving the status as: the
response's preset status when nonzero and not 200, else 500; forced to
400 with the comma-joined field messages for a structured validation
failure; forced to 400 with "<field> already exists" (first offending
field) for a duplicate-key error. -/
theorem C7_error_formatter_resolution :
    ∀ (st : Nat) (e : ErrObj),
      (∃ m, (errorHandler st e).body =
        .obj [("success", .bool false), ("message", .str m)]) ∧
      (e.validationMessages = none → e.code ≠ some 11000 →
        (errorHandler st e).status =
          if st ≠ 0 ∧ st ≠ 200 then st else 500) ∧
      (∀ msgs, e.validationMessages = some msgs → e.code ≠ some 11000 →
        errorHandler st e =
          { status := 400
            body := .obj [("success", .bool false),
              ("message", .str (String.intercalate ", " msgs))] }) ∧
      (e.code = some 11000 →
        errorHandler st e =
          { status := 400
            body := .obj [("success", .bool false),
              ("message", .str (e.keyPatternKeys.headD "undefined" ++
                " already exists"))] }) := by
  intro st e
  refine ⟨⟨_, rfl⟩, ?_, ?_, ?_⟩
  · intro hv hc
    have hc' : (e.code == some 11000) = false := by
      cases h : e.code == some 11000
      · rfl
      · exact absurd (eq_of_beq h) hc
    simp only [errorHandler, hv, hc', Bool.false_eq_true, if_false]
    rcases Nat.eq_zero_or_pos st with h0 | _
    · subst h0
      simp
    · by_cases h200 : st = 200
      · subst h200
        simp
      · have : (st != 0 && st != 200) = (if st ≠ 0 ∧ st ≠ 200 then true else false) := by
          by_cases hz : st = 0 <;> simp [hz, h200]
        simp [this, h200]
  · intro msgs hv hc
    have hc' : (e.code == some 11000) = false := by
      cases h : e.code == some 11000
      · rfl
      · exact absurd (eq_of_beq h) hc
    simp [errorHandler, hv, hc']
  · intro hc
    simp [errorHandler, hc]

/-- Witness for C7: a plain controller error with preset status 418 keeps
its status; a validation error and a duplicate-key error are forced to
400. -/
theorem C7_witness :
    (errorHandler 418 (mkError "boom")).status =
      (if (418 : Nat) ≠ 0 ∧ (418 : Nat) ≠ 200 then 418 else 500) ∧
    errorHandler 200 (validationErrOf [("email", "Email is required")]) =
      { status := 400
        body := .obj [("success", .bool false),
          ("message", .str (String.intercalate ", " ["Email is required"]))] } ∧
    errorHandler 200 dupKeyEmailErr =
      { status := 400
        body := .obj [("success", .bool false),
          ("message", .str ((dupKeyEmailErr.keyPatternKeys.headD "undefined") ++
            " already exists"))] } :=
  ⟨(C7_error_formatter_resolution 418 (mkError "boom")).2.1 rfl (by decide),
   (C7_error_formatter_resolution 200
      (validationErrOf [("email", "Email is required")])).2.2.1
     ["Email is required"] rfl (by decide),
   (C7_error_formatter_resolution 200 dupKeyEmailErr).2.2.2 rfl⟩

/-- C8 counterexample: a registration body whose email is present but
malformed passes the handler-level check (which tests only presence of
the four fields): the handler performs the pre-existence store lookup and
the rejection arises only from schema validation during save, thrown with
the Express-default preset status 200 — not a handler-level 400-class
signal issued before any store access, contrary to the claim. -/
theorem C8_counterexample :
    registerUser [] "000000000001"
        { name := some "A", email := some "bad-email"
          phone := some "9876543210", password := some "p1", role := none } =
      (.err 200 (validationErrOf
        [("email", "Please fill a valid email address")]), []) := rfl

/-- C8 amended: the required-ness rules are enforced at the handler level
with an immediate 400 rejection (uniform in the store, which is returned
untouched); the email and phone format rules are enforced only at the
store/schema level, whose structured validation failure lists every
failing field, not just the first. -/
theorem C8_amended_validation_split :
    (∀ db nid (b : RegisterBody),
      (falsy b.name || falsy b.email || falsy b.phone || falsy b.password) =
        true →
      registerUser db nid b =
        (.err 400 (mkError "name, email, phone and password are required"),
         db)) ∧
    (∀ db nid (d0 : UserDoc),
      validateUserDoc (applyDefaults (applySetters d0)) ≠ [] →
      saveNew db nid d0 =
        .error (validationErrOf
          (validateUserDoc (applyDefaults (applySetters d0))))) ∧
    (∀ d : UserDoc,
      requiredStr d.email = true → matchOk emailMatch d.email = false →
      requiredStr d.phone = true → matchOk phoneMatch d.phone = false →
      ("email", "Please fill a valid email address") ∈ validateUserDoc d ∧
      ("phone", "Please fill a valid Indian phone number") ∈
        validateUserDoc d) := by
  refine ⟨?_, ?_, ?_⟩
  · intro db nid b h
    simp [registerUser, h]
  · intro db nid d0 h
    have h' : (validateUserDoc (applyDefaults (applySetters d0))).isEmpty =
        false := by
      simpa [List.isEmpty_iff] using h
    simp [saveNew, h']
  · intro d h1 h2 h3 h4
    constructor
    · simp [validateUserDoc, baseFieldErrors, h1, h2, h3, h4]
    · simp [validateUserDoc, baseFieldErrors, h1, h2, h3, h4]

/-- Witness for C8 amended: a missing name is rejected by the handler
itself with preset 400; a document with both a malformed email and a
malformed phone gets both field errors from schema validation. -/
theorem C8_witness :
    registerUser [] "000000000001"
        { name := none, email := some "a@x.com", phone := some "9876543210"
          password := some "p1", role := none } =
      (.err 400 (mkError "name, email, phone and password are required"),
       []) ∧
    (("email", "Please fill a valid email address") ∈ validateUserDoc
        { name := some "A", email := some "bad-email", phone := some "123"
          password := some "p1", role := some "user" } ∧
     ("phone", "Please fill a valid Indian phone number") ∈ validateUserDoc
        { name := some "A", email := some "bad-email", phone := some "123"
          password := some "p1", role := some "user" }) :=
  ⟨C8_amended_validation_split.1 [] "000000000001"
     { name := none, email := some "a@x.com", phone := some "9876543210"
       password := some "p1", role := none } rfl,
   C8_amended_validation_split.2.2
     { name := some "A", email := some "bad-email", phone := some "123"
       password := some "p1", role := some "user" }
     rfl (by decide) rfl (by decide)⟩

/-- C9: in update profile, a supplied email whose lowercase form equals
the stored email (stored emails are lowercase) is treated as no change:
the handler behaves exactly as if no email had been supplied — the
uniqueness re-check is skipped, the email field is not modified, and the
response reflects the stored email. -/
theorem C9_case_equal_email_no_change :
    ∀ db idp (b : UpdateBody) u,
      dbFindById db idp = some u →
      toLowerStr (b.email.getD "") = u.email →
      updateUser db idp b = updateUser db idp { b with email := none } := by
  intro db idp b u hfind hlow
  cases hv : isValidObjectId idp with
  | false => simp [updateUser, hv]
  | true => simp [updateUser, hv, hfind, toLive, hlow, falsy]

/-- Witness for C9: updating with email `A@X.com` against a stored
`a@x.com` behaves exactly like an update with no email supplied. -/
theorem C9_witness :
    updateUser [sampleUser] "000000000001"
        { name := none, email := some "A@X.com", phone := none
          password := none } =
      updateUser [sampleUser] "000000000001"
        { name := none, email := none, phone := none, password := none } :=
  C9_case_equal_email_no_change [sampleUser] "000000000001"
    { name := none, email := some "A@X.com", phone := none, password := none }
    sampleUser (by decide) (by decide)

theorem data_isEmpty_false_of_ne (s : String) (h : s ≠ "") :
    s.data.isEmpty = false := by
  cases s with
  | mk data =>
      cases data with
      | nil => exact absurd rfl h
      | cons c cs => rfl

/-- C10: a registration whose role field is present but empty (falsy) is
treated as an absent role — the schema default applies and the user is
stored with role "user" — while a nonempty role outside the enum
must produce the schema enum validation failure, surfaced as 400. -/
theorem C10_falsy_role_defaults_invalid_role_rejected :
    ∀ db nid (nm em ph pw r : String),
      nm ≠ "" → em ≠ "" → ph ≠ "" → pw ≠ "" →
      dbFindByEmail db (toLowerStr em) = none →
      validateUserDoc (applyDefaults (applySetters
        { name := some nm, email := some em, phone := some ph
          password := some pw, role := none })) = [] →
      db.any (fun v => v.email == trimStr (toLowerStr em)) = false →
      (registerUser db nid
          { name := some nm, email := some em, phone := some ph
            password := some pw, role := some "" } =
        (.resp { status := 201
                 body := .obj [("success", .bool true),
                   ("message", .str "User registered successfully"),
                   ("user", userViewJson
                     { id := nid, name := trimStr nm
                       email := trimStr (toLowerStr em), phone := trimStr ph
                       password := bcryptHash pw, role := "user" })] },
         db ++ [{ id := nid, name := trimStr nm
                  email := trimStr (toLowerStr em), phone := trimStr ph
                  password := bcryptHash pw, role := "user" }])) ∧
      (r ≠ "" → (r == "user" || r == "admin") = false →
        registerUser db nid
            { name := some nm, email := some em, phone := some ph
              password := some pw, role := some r } =
          (.err 200 (validationErrOf [("role", roleEnumMsg r)]), db) ∧
        (finishOutcome (registerUser db nid
            { name := some nm, email := some em, phone := some ph
              password := some pw, role := some r }).1).status = 400) := by
  intro db nid nm em ph pw r hnm hem hph hpw hfind hval hcol
  have hnm' : falsy (some nm) = false := data_isEmpty_false_of_ne nm hnm
  have hem' : falsy (some em) = false := data_isEmpty_false_of_ne em hem
  have hph' : falsy (some ph) = false := data_isEmpty_false_of_ne ph hph
  have hpw' : falsy (some pw) = false := data_isEmpty_false_of_ne pw hpw
  have hsv : saveNew db nid
      { name := some nm, email := some em, phone := some ph
        password := some pw, role := none } =
      .ok (db ++ [{ id := nid, name := trimStr nm
                    email := trimStr (toLowerStr em), phone := trimStr ph
                    password := bcryptHash pw, role := "user" }],
           { id := nid, name := trimStr nm, email := trimStr (toLowerStr em)
             phone := trimStr ph, password := bcryptHash pw
             role := "user" }) := by
    simp only [saveNew]
    rw [hval]
    simp only [List.isEmpty_nil, Bool.not_true, Bool.false_eq_true, if_false]
    rw [show (applyDefaults (applySetters
      { name := some nm, email := some em, phone := some ph
        password := some pw, role := none })).email.getD "" =
      trimStr (toLowerStr em) from rfl]
    rw [hcol]
    rfl
  constructor
  · simp only [registerUser, hnm', hem', hph', hpw', Bool.or_self,
      Bool.or_false, Bool.false_or, Bool.false_eq_true, if_false,
      Option.getD_some]
    rw [hfind]
    rw [show falsy (some "") = true from rfl]
    simp only [if_true]
    rw [hsv]
  · intro hr hrenum
    have hfr : falsy (some r) = false := data_isEmpty_false_of_ne r hr
    have hbase : baseFieldErrors (applyDefaults (applySetters
        { name := some nm, email := some em, phone := some ph
          password := some pw, role := some r })) = [] := by
      have h := hval
      simp only [validateUserDoc] at h
      exact (List.append_eq_nil.mp h).1
    have hrole : roleFieldErrors (applyDefaults (applySetters
        { name := some nm, email := some em, phone := some ph
          password := some pw, role := some r })) =
        [("role", roleEnumMsg r)] := by
      simp [roleFieldErrors, applyDefaults, applySetters, hrenum]
    have hvr : validateUserDoc (applyDefaults (applySetters
        { name := some nm, email := some em, phone := some ph
          password := some pw, role := some r })) =
        [("role", roleEnumMsg r)] := by
      simp [validateUserDoc, hbase, hrole]
    have hsvr : saveNew db nid
        { name := some nm, email := some em, phone := some ph
          password := some pw, role := some r } =
        .error (validationErrOf [("role", roleEnumMsg r)]) := by
      simp only [saveNew]
      rw [hvr]
      rfl
    have hreg : registerUser db nid
        { name := some nm, email := some em, phone := some ph
          password := some pw, role := some r } =
        (.err 200 (validationErrOf [("role", roleEnumMsg r)]), db) := by
      simp only [registerUser, hnm', hem', hph', hpw', hfr, Bool.or_self,
        Bool.or_false, Bool.false_or, Bool.false_eq_true, if_false,
        Option.getD_some]
      rw [hfind]
      rw [hsvr]
    refine ⟨hreg, ?_⟩
    rw [hreg]
    rfl

/-- Witness for C10 at concrete inputs: role `""` registers with role
"user"; role `"moderator"` is rejected by the schema enum and finishes
400. -/
theorem C10_witness :
    (registerUser [] "000000000001"
        { name := some "A", email := some "A@x.com", phone := some "9876543210"
          password := some "p1", role := some "" } =
      (.resp { status := 201
               body := .obj [("success", .bool true),
                 ("message", .str "User registered successfully"),
                 ("user", userViewJson
                   { id := "000000000001", name := trimStr "A"
                     email := trimStr (toLowerStr "A@x.com")
                     phone := trimStr "9876543210"
                     password := bcryptHash "p1", role := "user" })] },
       [] ++ [{ id := "000000000001", name := trimStr "A"
                email := trimStr (toLowerStr "A@x.com")
                phone := trimStr "9876543210"
                password := bcryptHash "p1", role := "user" }])) ∧
    (registerUser [] "000000000001"
        { name := some "A", email := some "A@x.com", phone := some "9876543210"
          password := some "p1", role := some "moderator" } =
      (.err 200 (validationErrOf [("role", roleEnumMsg "moderator")]), []) ∧
     (finishOutcome (registerUser [] "000000000001"
        { name := some "A", email := some "A@x.com", phone := some "9876543210"
          password := some "p1", role := some "moderator" }).1).status = 400) :=
  have h := C10_falsy_role_defaults_invalid_role_rejected [] "000000000001"
    "A" "A@x.com" "9876543210" "p1" "moderator"
    (by decide) (by decide) (by decide) (by decide)
    rfl (by decide) rfl
  ⟨h.1, h.2 (by decide) (by decide)⟩
